import Mathlib

/-!
Verification of the portfolio repository's content API and markdown pipeline.

The definitions below are shallow embeddings of the JavaScript source:
  * the admonition preprocessor and the fenced-code renderer of the blog
    detail page (client, `preprocessAdmonitions` / `renderer.code`);
  * the Express route handlers of the server (auth middleware, blog CRUD,
    list endpoints, batch reorder, image upload).
Strings are modelled as `List Char` where character-level scanning matters
and as `String` elsewhere; Mongo documents are Lean structures following
`models.js`; dates are naturals; the persistence layer and external
libraries (jwt, highlight.js, Cloudinary) appear as function parameters.
-/

namespace Portfolio

/-! ### Character classes of the JavaScript regex dialect (ASCII fragment) -/

/-- JS `\w`: ASCII letters, digits and underscore. -/
def isWordChar (c : Char) : Bool :=
  c.isAlpha || c.isDigit || c = '_'

/-- JS `\s` (ASCII fragment): space, tab, newline, carriage return,
vertical tab, form feed. -/
def isSpaceChar (c : Char) : Bool :=
  c = ' ' || c = '\t' || c = '\n' || c = '\r' || c = '\x0b' || c = '\x0c'

/-- Line terminators recognised by JS multiline anchors and excluded by `.`
(ASCII fragment). -/
def isLineTerm (c : Char) : Bool :=
  c = '\n' || c = '\r'

/-! ### The admonition preprocessor

Source regex (client blog page):
  `/^(?::::|!!!) *(\w+)(?: +(.+))?\n([\s\S]*?)(?::::|!!!)\s*$/gm`
applied with `String.replace` and a callback that passes unrecognised
keywords through unchanged and rewrites recognised ones into a container
div. -/

/-- Strips one of the two delimiter spellings (three colons or three bangs)
from the front of the text, mirroring the alternation at either end of the
regex. -/
def delimAt : List Char → Option (List Char)
  | ':' :: ':' :: ':' :: t => some t
  | '!' :: '!' :: '!' :: t => some t
  | _ => none

/-- After a candidate closing delimiter, `\s*$` (multiline) succeeds exactly
when every character up to the next line terminator — or to the end of the
input — is whitespace. -/
def wsToLineEnd (s : List Char) : Bool :=
  (s.takeWhile (fun c => !(isLineTerm c))).all isSpaceChar

/-- Index just past the last line terminator inside `l`, scanning greedily;
`none` when `l` has no line terminator. Used to compute how much whitespace
the greedy `\s*` keeps before backtracking for `$`. -/
def lastLineTermIdx (l : List Char) : Option Nat :=
  match l with
  | [] => none
  | c :: t =>
    match lastLineTermIdx t with
    | some i => some (i + 1)
    | none => if isLineTerm c then some 0 else none

/-- Number of characters the greedy `\s*` of the closing `(?::::|!!!)\s*$`
consumes: the whole whitespace run when it reaches the end of the input,
otherwise up to (not including) the last line terminator of the run. -/
def wsConsume (t : List Char) : Nat :=
  let ws := t.takeWhile isSpaceChar
  if ws.length = t.length then t.length
  else
    match lastLineTermIdx ws with
    | some i => i
    | none => 0

/-- Searches the body region for the nearest closing delimiter (either
spelling) whose rest-of-line is whitespace, mirroring the non-greedy
`[\s\S]*?` followed by `(?::::|!!!)\s*$`. Returns the body length and the
number of characters the closing part consumes. -/
def findClose : List Char → Option (Nat × Nat)
  | [] => none
  | c :: rest =>
    match delimAt (c :: rest) with
    | some afterD =>
      if wsToLineEnd afterD then some (0, 3 + wsConsume afterD)
      else (findClose rest).map (fun p => (p.1 + 1, p.2))
    | none => (findClose rest).map (fun p => (p.1 + 1, p.2))

/-- Parses the optional `(?: +(.+))?` group against the rest of the opening
line. `none` means the whole match fails; `some none` means the group is
skipped (empty rest of line); `some (some t)` is a captured title. A rest
of line made only of `n ≥ 2` spaces captures a single-space title by
backtracking; a single space fails. -/
def parseTitle (lineRest : List Char) : Option (Option (List Char)) :=
  match lineRest with
  | [] => some none
  | c :: _ =>
    if c = ' ' then
      let t := lineRest.dropWhile (fun d => d = ' ')
      if t.isEmpty then
        if lineRest.length ≥ 2 then some (some [' ']) else none
      else some (some t)
    else none

/-- Parse result of one admonition block: number of characters consumed
from the start of the block, the type keyword, the optional title, and the
body region. -/
structure AdMatch where
  consumed : Nat
  typeWord : List Char
  title : Option (List Char)
  body : List Char
  deriving DecidableEq, Repr

/-- Matches the part of the block after the opening delimiter: optional
spaces, the `\w+` keyword, the optional title, the literal newline, then
the non-greedy body up to an acceptable closing delimiter. Returns the
characters consumed after the delimiter together with keyword, title and
body. -/
def matchAfter (t : List Char) : Option (Nat × List Char × Option (List Char) × List Char) :=
  let sp := (t.takeWhile (fun c => c = ' ')).length
  let t1 := t.drop sp
  let w := t1.takeWhile isWordChar
  if w.isEmpty then none
  else
    let t2 := t1.drop w.length
    let lineRest := t2.takeWhile (fun c => !(isLineTerm c))
    match t2.drop lineRest.length, parseTitle lineRest with
    | '\n' :: bodyStart, some title =>
      match findClose bodyStart with
      | some (bodyLen, closeCons) =>
        some (sp + w.length + lineRest.length + 1 + bodyLen + closeCons,
              w, title, bodyStart.take bodyLen)
      | none => none
    | _, _ => none

/-- Attempts the full admonition regex at the current position (which the
caller guarantees is a line start). -/
def matchBlock (cs : List Char) : Option AdMatch :=
  match delimAt cs with
  | none => none
  | some t =>
    match matchAfter t with
    | none => none
    | some (n, w, title, body) => some ⟨3 + n, w, title, body⟩

/-- Admonition icon table, in source order (`ADMONITION_ICONS`). -/
def ADMONITION_ICONS : List (List Char × List Char) :=
  [("note".data, "ℹ️".data), ("info".data, "ℹ️".data),
   ("tip".data, "💡".data), ("success".data, "✅".data), ("hint".data, "💡".data),
   ("warning".data, "⚠️".data), ("caution".data, "⚠️".data), ("attention".data, "⚠️".data),
   ("danger".data, "🚨".data), ("error".data, "❌".data), ("bug".data, "🐛".data),
   ("example".data, "📝".data), ("abstract".data, "📋".data), ("question".data, "❓".data),
   ("quote".data, "💬".data), ("failure".data, "❗".data)]

/-- Recognised admonition keywords (`Object.keys(ADMONITION_ICONS)`). -/
def ADMONITION_TYPES : List (List Char) :=
  ADMONITION_ICONS.map (fun p => p.1)

/-- Icon for a (lower-cased) keyword, with the source's `'ℹ️'` default. -/
def iconFor (t : List Char) : List Char :=
  match ADMONITION_ICONS.find? (fun p => p.1 = t) with
  | some p => p.2
  | none => "ℹ️".data

/-- JS `String.prototype.trim` on the character list (whitespace stripped
from both ends). -/
def trimChars (l : List Char) : List Char :=
  ((l.dropWhile isSpaceChar).reverse.dropWhile isSpaceChar).reverse

/-- JS `s.charAt(0).toUpperCase() + s.slice(1)`. -/
def capitalizeWord : List Char → List Char
  | [] => []
  | c :: r => c.toUpper :: r

/-- Whether the matched block's keyword is recognised (case-insensitively). -/
def isRecognized (m : AdMatch) : Bool :=
  ADMONITION_TYPES.contains (m.typeWord.map Char.toLower)

/-- The replacement callback of the source's `markdown.replace`: an
unrecognised keyword returns the matched text unchanged, a recognised one
produces the admonition container with icon, title and trimmed body. The
random DOM id generated by the source is passed in as `id`. -/
def replaceOut (id : List Char) (matched : List Char) (m : AdMatch) : List Char :=
  let tl := m.typeWord.map Char.toLower
  if ADMONITION_TYPES.contains tl then
    let displayTitle :=
      match m.title with
      | some t => t
      | none => capitalizeWord tl
    "\n<div class=\"admonition admonition-".data ++ tl ++
      "\" data-admonition=\"".data ++ id ++
      "\"><p class=\"admonition-title\">".data ++ iconFor tl ++ " ".data ++ displayTitle ++
      "</p>\n\n".data ++ trimChars m.body ++ "\n\n</div>\n".data
  else matched

/-- Global-replace scan of `String.replace(regex, cb)` with the `gm` flags:
attempts the anchored block match at every line start, emits either the
callback output (advancing past the match) or the current character. `g`
numbers the recognised matches so each can receive its own generated id;
`fuel` bounds the recursion by the input length (each step consumes at
least one character, so the fuel never runs out on the initial call). -/
def processAux (g : Nat → List Char) : Nat → Nat → Bool → List Char → List Char
  | _, _, _, [] => []
  | _, 0, _, cs => cs
  | n, fuel + 1, bol, c :: rest =>
    if bol then
      match matchBlock (c :: rest) with
      | some m =>
        replaceOut (g n) ((c :: rest).take m.consumed) m ++
          processAux g (if isRecognized m then n + 1 else n) fuel false ((c :: rest).drop m.consumed)
      | none => c :: processAux g n fuel (c = '\n') rest
    else c :: processAux g n fuel (c = '\n') rest

/-- The admonition preprocessor on character lists. -/
def preprocessAdmonitions (g : Nat → List Char) (md : List Char) : List Char :=
  processAux g 0 md.length true md

/-- The admonition preprocessor on strings. -/
def preprocessAdmonitionsStr (g : Nat → List Char) (md : String) : String :=
  ⟨preprocessAdmonitions g md.data⟩

/-- Fixed id generator standing in for the source's `Math.random` ids in
concrete computations. -/
def demoId : Nat → List Char := fun _ => "ID".data

/-! ### Data model (`models.js`)

Documents carry the schema fields plus the server-assigned id and the
`timestamps: true` pair. Dates are naturals, ids are naturals. -/

/-- A BlogPost document (`blogPostSchema`). -/
structure BlogDoc where
  id : Nat
  title : String
  slug : String
  content : String
  excerpt : String
  coverImage : String
  tags : List String
  published : Bool
  publishedAt : Option Nat
  order : Int
  createdAt : Nat
  updatedAt : Nat
  deriving DecidableEq, Repr

/-- A Photography document (`photographySchema`). -/
structure PhotoDoc where
  id : Nat
  title : String
  description : String
  imageUrl : String
  category : String
  tags : List String
  featured : Bool
  order : Int
  createdAt : Nat
  updatedAt : Nat
  deriving DecidableEq, Repr

/-- A Video document (`videoSchema`). -/
structure VideoDoc where
  id : Nat
  title : String
  description : String
  youtubeId : String
  thumbnail : String
  category : String
  tags : List String
  featured : Bool
  order : Int
  createdAt : Nat
  updatedAt : Nat
  deriving DecidableEq, Repr

/-- An Experience document (`experienceSchema`); `type` is the
work/education/volunteer discriminator. -/
structure ExpDoc where
  id : Nat
  title : String
  company : String
  logoUrl : String
  location : String
  startDate : String
  endDate : String
  description : String
  achievements : List String
  technologies : List String
  type : String
  featured : Bool
  order : Int
  createdAt : Nat
  updatedAt : Nat
  deriving DecidableEq, Repr

/-- A Project document (`projectSchema`). -/
structure ProjDoc where
  id : Nat
  name : String
  description : String
  imageUrl : String
  technologies : List String
  githubUrl : String
  liveUrl : String
  highlights : List String
  startDate : String
  endDate : String
  featured : Bool
  order : Int
  createdAt : Nat
  updatedAt : Nat
  deriving DecidableEq, Repr

/-- A Skill document (`skillSchema`); each listed skill is a name with a
featured flag. -/
structure SkillDoc where
  id : Nat
  category : String
  skills : List (String × Bool)
  featured : Bool
  order : Int
  createdAt : Nat
  updatedAt : Nat
  deriving DecidableEq, Repr

/-- A Course document (`courseSchema`). -/
structure CourseDoc where
  id : Nat
  name : String
  description : String
  featured : Bool
  order : Int
  createdAt : Nat
  updatedAt : Nat
  deriving DecidableEq, Repr

/-- A Creative document (`creativeSchema`). -/
structure CreativeDoc where
  id : Nat
  title : String
  description : String
  imageUrl : String
  linkUrl : String
  category : String
  tags : List String
  featured : Bool
  order : Int
  createdAt : Nat
  updatedAt : Nat
  deriving DecidableEq, Repr

/-! ### Auth middleware

Source: `const token = req.headers.authorization?.split(' ')[1];
if (!token) return res.status(401).json({message:'No token'});
try { jwt.verify(token, secret); next(); }
catch { res.status(401).json({message:'Invalid token'}); }`. -/

/-- JS `String.prototype.split(' ')`: split at every single space,
keeping empty segments. -/
def jsSplitSpace : List Char → List (List Char)
  | [] => [[]]
  | c :: t =>
    if c = ' ' then [] :: jsSplitSpace t
    else
      match jsSplitSpace t with
      | [] => [[c]]
      | seg :: rest => (c :: seg) :: rest

/-- Extracts the bearer token from the `Authorization` header the way the
middleware does: split on a single space, take index 1, treat an absent or
empty entry as missing (JS falsiness of `undefined` and `""`). -/
def extractToken (hdr : Option String) : Option String :=
  match hdr with
  | none => none
  | some h =>
    match (jsSplitSpace h.data).get? 1 with
    | none => none
    | some t => if t.isEmpty then none else some ⟨t⟩

/-- The auth middleware: `none` means the request passes through to the
handler; `some (status, message)` is the rejection response. `verify`
stands for `jwt.verify` against the server secret (`true` = no throw). -/
def authMiddleware (verify : String → Bool) (hdr : Option String) : Option (Nat × String) :=
  match extractToken hdr with
  | none => some (401, "No token")
  | some t => if verify t then none else some (401, "Invalid token")

/-! ### Blog route handlers (`part_001`) -/

/-- Fields a blog request body may carry; `none` = field absent. Mongoose
setters (`trim` on title and tags, `lowercase` on slug) are applied where
the schema declares them. -/
structure BlogBody where
  title : Option String := none
  slug : Option String := none
  content : Option String := none
  excerpt : Option String := none
  coverImage : Option String := none
  tags : Option (List String) := none
  published : Option Bool := none
  publishedAt : Option Nat := none
  order : Option Int := none
  deriving DecidableEq, Repr

/-- Required-field validation the schema performs at `save` time on a new
document (title, slug, content, excerpt are `required: true`). -/
def validBlogCreate (b : BlogBody) : Bool :=
  b.title.isSome && b.slug.isSome && b.content.isSome && b.excerpt.isSome

/-- The document `new BlogPost(req.body)` builds, with schema defaults and
setters applied; `newId`/`now` are the generated id and timestamps. -/
def newBlogDoc (newId now : Nat) (b : BlogBody) : BlogDoc :=
  { id := newId
    title := ((b.title.map String.trim).getD "")
    slug := ((b.slug.map String.toLower).getD "")
    content := b.content.getD ""
    excerpt := b.excerpt.getD ""
    coverImage := b.coverImage.getD ""
    tags := (b.tags.map (List.map String.trim)).getD []
    published := b.published.getD false
    publishedAt := b.publishedAt
    order := b.order.getD 0
    createdAt := now
    updatedAt := now }

/-- `POST /api/blog`: builds the document, stamps `publishedAt` when the
post is published and carries no `publishedAt`, then saves (validation can
reject with 400). Returns the status and the saved document, if any. -/
def postBlog (newId now : Nat) (b : BlogBody) : Nat × Option BlogDoc :=
  let post := newBlogDoc newId now b
  let post :=
    if post.published && post.publishedAt.isNone then
      { post with publishedAt := some now }
    else post
  if validBlogCreate b then (201, some post) else (400, none)

/-- Merge-update of a stored document by a request body
(`findByIdAndUpdate`): supplied fields overwrite, absent fields persist,
schema setters apply, `updatedAt` is refreshed. -/
def mergeBlogBody (d : BlogDoc) (b : BlogBody) (now : Nat) : BlogDoc :=
  { d with
    title := ((b.title.map String.trim).getD d.title)
    slug := ((b.slug.map String.toLower).getD d.slug)
    content := b.content.getD d.content
    excerpt := b.excerpt.getD d.excerpt
    coverImage := b.coverImage.getD d.coverImage
    tags := ((b.tags.map (List.map String.trim)).getD d.tags)
    published := b.published.getD d.published
    publishedAt := (match b.publishedAt with
      | some v => some v
      | none => d.publishedAt)
    order := b.order.getD d.order
    updatedAt := now }

/-- The `findByIdAndUpdate` step of `PUT /api/blog/:id` together with the
surrounding status logic: a store-level validation failure throws (400),
a missing id yields 404, otherwise the first document with the id is
merge-updated and 200 returned. `validate` stands for whatever the
persistence layer enforces on the update. -/
def putBlogUpdate (validate : BlogBody → Bool) (store : List BlogDoc) (rid : Nat)
    (b : BlogBody) (now : Nat) : Nat × List BlogDoc :=
  if !(validate b) then (400, store)
  else
    match store.find? (fun d => d.id == rid) with
    | none => (404, store)
    | some _ => (200, store.map (fun d => if d.id == rid then mergeBlogBody d b now else d))

/-- `PUT /api/blog/:id`: reads the previous `published` flag, stamps
`publishedAt` into the body on a false→true transition without a supplied
`publishedAt`, then merge-updates. When the id does not exist and
`req.body.published` is truthy, the source dereferences `was.published` on
`null`; the thrown `TypeError` is caught by the handler's `catch`, so the
route answers 400 — that branch is modelled as the immediate `(400, store)`
result. -/
def putBlog (validate : BlogBody → Bool) (store : List BlogDoc) (rid : Nat)
    (b : BlogBody) (now : Nat) : Nat × List BlogDoc :=
  match b.published with
  | some true =>
    match store.find? (fun d => d.id == rid) with
    | none => (400, store)
    | some was =>
      let b' :=
        if !was.published && b.publishedAt.isNone then
          { b with publishedAt := some now }
        else b
      putBlogUpdate validate store rid b' now
  | _ => putBlogUpdate validate store rid b now

/-- Outcome of a `GET /api/blog/...` request: a single post, a list of
posts, or an error message. -/
inductive BlogGetResult where
  | one (p : BlogDoc)
  | many (ps : List BlogDoc)
  | err (message : String)
  deriving DecidableEq, Repr

/-! ### Mongo `.sort` as a stable comparison sort -/

/-- Insertion into a sorted list under a boolean comparison, keeping equal
elements in their original relative position. -/
def insertLe {α : Type} (le : α → α → Bool) (a : α) : List α → List α
  | [] => [a]
  | b :: l => if le a b then a :: b :: l else b :: insertLe le a l

/-- Stable insertion sort under a boolean comparison; the model of a Mongo
`.sort({...})` projection of a collection. -/
def sortLe {α : Type} (le : α → α → Bool) : List α → List α
  | [] => []
  | a :: l => insertLe le a (sortLe le l)

/-- Lexicographic two-key comparison: primary integer key ascending, then
a tie comparison. -/
def lexLe {α : Type} (k : α → Int) (tie : α → α → Bool) (a b : α) : Bool :=
  decide (k a < k b) || (decide (k a = k b) && tie a b)

/-! ### List (GET) endpoints -/

/-- `GET /api/photography`: `Photography.find().sort({order: 1})`. The
handler never reads the request query. -/
def getPhotography (store : List PhotoDoc) (_q : Option String) : List PhotoDoc :=
  sortLe (lexLe (fun d => d.order) (fun _ _ => true)) store

/-- `GET /api/videos`: `Video.find().sort({order: 1})`. -/
def getVideos (store : List VideoDoc) (_q : Option String) : List VideoDoc :=
  sortLe (lexLe (fun d => d.order) (fun _ _ => true)) store

/-- `GET /api/skills`: `Skill.find().sort({order: 1})`. -/
def getSkills (store : List SkillDoc) (_q : Option String) : List SkillDoc :=
  sortLe (lexLe (fun d => d.order) (fun _ _ => true)) store

/-- `GET /api/courses`: `Course.find().sort({order: 1})`. -/
def getCourses (store : List CourseDoc) (_q : Option String) : List CourseDoc :=
  sortLe (lexLe (fun d => d.order) (fun _ _ => true)) store

/-- `GET /api/creatives`: `Creative.find().sort({order: 1})`. -/
def getCreatives (store : List CreativeDoc) (_q : Option String) : List CreativeDoc :=
  sortLe (lexLe (fun d => d.order) (fun _ _ => true)) store

/-- `GET /api/experience`: `req.query.type ? {type: req.query.type} : {}`
(an empty string is falsy in JS, so it does not filter), then
`.sort({order: 1, startDate: -1})`. -/
def getExperience (store : List ExpDoc) (q : Option String) : List ExpDoc :=
  let query :=
    match q with
    | some t => if t = "" then store else store.filter (fun d => d.type == t)
    | none => store
  sortLe (lexLe (fun d => d.order) (fun a b => decide (b.startDate ≤ a.startDate))) query

/-- `GET /api/projects`: `Project.find().sort({order: 1, createdAt: -1})`. -/
def getProjects (store : List ProjDoc) (_q : Option String) : List ProjDoc :=
  sortLe (lexLe (fun d => d.order) (fun a b => decide (b.createdAt ≤ a.createdAt))) store

/-- `GET /api/blog`: `BlogPost.find({published: true}).sort({publishedAt: -1})`
— published posts only, newest publication first. -/
def getBlogPublic (store : List BlogDoc) : List BlogDoc :=
  sortLe (fun a b => decide (b.publishedAt.getD 0 ≤ a.publishedAt.getD 0))
    (store.filter (fun d => d.published))

/-- `GET /api/blog/all` (behind the auth middleware):
`BlogPost.find().sort({createdAt: -1})`. -/
def getBlogAll (store : List BlogDoc) : List BlogDoc :=
  sortLe (fun a b => decide (b.createdAt ≤ a.createdAt)) store

/-- A `GET /api/blog/<seg>` request as Express routes it: the literal
route `/api/blog/all` is registered before `/api/blog/:slug`, so the
segment `all` reaches the authenticated list-all handler and every other
segment reaches the public by-slug handler
(`findOne({slug, published: true})`, 404 when absent). -/
def getBlogSeg (verify : String → Bool) (hdr : Option String) (store : List BlogDoc)
    (seg : String) : Nat × BlogGetResult :=
  if seg = "all" then
    match authMiddleware verify hdr with
    | some (st, msg) => (st, .err msg)
    | none => (200, .many (getBlogAll store))
  else
    match store.find? (fun d => d.slug == seg && d.published) with
    | none => (404, .err "Not found")
    | some p => (200, .one p)

/-! ### Batch reorder (`PUT /api/photography/reorder`) -/

/-- One entry of the reorder request body. -/
structure ReorderItem where
  id : Nat
  order : Int
  deriving DecidableEq, Repr

/-- One `Photography.findByIdAndUpdate(item.id, {order: item.order})` of
the `Promise.all`: when the persistence call fails the store is untouched;
otherwise the documents with that id get the new `order` and — because the
schema has `timestamps: true`, which adds `updatedAt` to the update's
`$set` — a refreshed `updatedAt` (`now`). -/
def applyReorderItem (fails : ReorderItem → Bool) (now : Nat) (st : List PhotoDoc)
    (it : ReorderItem) : List PhotoDoc :=
  if fails it then st
  else st.map (fun d =>
    if d.id == it.id then { d with order := it.order, updatedAt := now } else d)

/-- The reorder endpoint: every item's update is issued (all calls are
started before `Promise.all` settles), a failing item leaves its own
update unapplied, and any failure surfaces as the handler's 400 response
instead of rolling the others back. `now` is the request's clock reading
used for the `timestamps: true` refresh. -/
def reorderPhotography (fails : ReorderItem → Bool) (now : Nat) (store : List PhotoDoc)
    (items : List ReorderItem) : Nat × List PhotoDoc :=
  ((if items.any fails then 400 else 200),
   items.foldl (applyReorderItem fails now) store)

/-- Effect of one reorder item on a single document: nothing on a failed
update or a different id, otherwise the `order` field plus the
`timestamps: true` refresh of `updatedAt`. -/
def applyChainItem (fails : ReorderItem → Bool) (now : Nat) (d : PhotoDoc)
    (it : ReorderItem) : PhotoDoc :=
  if fails it then d
  else if d.id == it.id then { d with order := it.order, updatedAt := now } else d

/-- Pointwise effect of the whole reorder batch on a single document. -/
def applyChain (fails : ReorderItem → Bool) (now : Nat) (items : List ReorderItem)
    (d : PhotoDoc) : PhotoDoc :=
  items.foldl (applyChainItem fails now) d

/-! ### Image upload (`POST /api/upload`) -/

/-- Byte ceiling of the multer configuration: `10 * 1024 * 1024`. -/
def uploadSizeLimit : Nat := 10 * 1024 * 1024

/-- Whether the character list starts with the given pattern. -/
def listStartsWith : List Char → List Char → Bool
  | _, [] => true
  | [], _ :: _ => false
  | c :: s, d :: p => c = d && listStartsWith s p

/-- JS `String.prototype.startsWith`. -/
def strStartsWith (s pre : String) : Bool :=
  listStartsWith s.data pre.data

/-- The upload route: auth middleware, then multer whose `fileFilter`
rejects any content type not starting with `image/` and whose `limits`
reject files over the ceiling — both rejections land in the terminal
Express error middleware (`res.status(500).json({message: 'Error!'})`) —
then the handler itself: 400 without a file, otherwise the Cloudinary
result (`cloud`, the streamed upload, `.ok url` on success) as 200, or its
error message as 500. -/
def uploadRoute (verify : String → Bool) (hdr : Option String) (mimetype : String)
    (size : Nat) (filePresent : Bool) (cloud : Except String String) : Nat × String :=
  match authMiddleware verify hdr with
  | some (st, msg) => (st, msg)
  | none =>
    if !(strStartsWith mimetype "image/") then (500, "Error!")
    else if size > uploadSizeLimit then (500, "Error!")
    else if !filePresent then (400, "No image file provided")
    else
      match cloud with
      | .ok url => (200, url)
      | .error e => (500, e)

/-! ### Fenced-code renderer (`renderer.code`) -/

/-- Global single-character replacement, one pass. -/
def replaceChar (c : Char) (rep : List Char) : List Char → List Char
  | [] => []
  | d :: t => if d = c then rep ++ replaceChar c rep t else d :: replaceChar c rep t

/-- The manual escape chain of the renderer's last fallback:
`.replace(/&/g,'&amp;').replace(/</g,'&lt;').replace(/>/g,'&gt;')`,
three sequential passes. -/
def escapeHtml (s : String) : String :=
  ⟨replaceChar '>' "&gt;".data
    (replaceChar '<' "&lt;".data
      (replaceChar '&' "&amp;".data s.data))⟩

/-- The wrapper markup around the highlighted code: the language label and
the `language-` class appear exactly when a language tag was declared
(JS truthiness of `lang`). -/
def mkCodeBlock (lang : Option String) (h : String) : String :=
  let langT : Bool := match lang with | some l => l ≠ "" | none => false
  let l := lang.getD ""
  let label := if langT then "<span class=\"code-lang-label\">" ++ l ++ "</span>" else ""
  let cls := if langT then " language-" ++ l else ""
  "<div class=\"code-block-wrapper\">" ++ label ++ "<pre><code class=\"hljs" ++ cls ++
    "\">" ++ h ++ "</code></pre></div>"

/-- The code renderer. `getLanguage`, `highlight` and `highlightAuto` stand
for the highlight.js calls; `Except.error` models a thrown exception. In
the declared-and-recognised branch only `hljs.highlight` is inside the
`try`, so a failure of the subsequent `highlightAuto` propagates out of
the renderer; the escaped-plain-text fallback exists only in the other
branch. -/
def rendererCode (getLanguage : String → Bool) (highlight : String → String → Except String String)
    (highlightAuto : String → Except String String) (codeStr : String)
    (lang : Option String) : Except String String :=
  let langT : Bool := match lang with | some l => l ≠ "" | none => false
  let hl : Except String String :=
    if langT && getLanguage (lang.getD "") then
      match highlight codeStr (lang.getD "") with
      | .ok v => .ok v
      | .error _ => highlightAuto codeStr
    else
      match highlightAuto codeStr with
      | .ok v => .ok v
      | .error _ => .ok (escapeHtml codeStr)
  match hl with
  | .error e => .error e
  | .ok h => .ok (mkCodeBlock lang h)

/-- Substring (contiguous) occurrence test on character lists. -/
def hasSub (sub : List Char) : List Char → Bool
  | [] => sub.isEmpty
  | c :: t => listStartsWith (c :: t) sub || hasSub sub t

/-! ### Concrete documents used in counterexamples and witnesses -/

/-- A published post with a recorded publication date. -/
def demoPost : BlogDoc :=
  { id := 1, title := "t", slug := "s", content := "c", excerpt := "e",
    coverImage := "", tags := [], published := true, publishedAt := some 100,
    order := 0, createdAt := 50, updatedAt := 50 }

/-- An unpublished draft. -/
def demoDraft : BlogDoc :=
  { id := 4, title := "d", slug := "draft", content := "c", excerpt := "e",
    coverImage := "", tags := [], published := false, publishedAt := none,
    order := 0, createdAt := 60, updatedAt := 60 }

/-- A published post whose slug is the literal string `all`. -/
def demoAllPost : BlogDoc :=
  { id := 3, title := "All post", slug := "all", content := "c", excerpt := "e",
    coverImage := "", tags := [], published := true, publishedAt := some 10,
    order := 0, createdAt := 1, updatedAt := 1 }

/-- A work experience entry. -/
def demoExpWork : ExpDoc :=
  { id := 1, title := "T", company := "C", logoUrl := "", location := "",
    startDate := "2020", endDate := "Present", description := "", achievements := [],
    technologies := [], type := "work", featured := false, order := 0,
    createdAt := 1, updatedAt := 1 }

/-- An education experience entry. -/
def demoExpEdu : ExpDoc :=
  { id := 2, title := "S", company := "U", logoUrl := "", location := "",
    startDate := "2018", endDate := "2020", description := "", achievements := [],
    technologies := [], type := "education", featured := false, order := 0,
    createdAt := 2, updatedAt := 2 }

/-- Two photographs sharing the default order. -/
def demoPhoto1 : PhotoDoc :=
  { id := 1, title := "p1", description := "", imageUrl := "u1", category := "other",
    tags := [], featured := false, order := 0, createdAt := 1, updatedAt := 1 }

/-- Second demo photograph. -/
def demoPhoto2 : PhotoDoc :=
  { id := 2, title := "p2", description := "", imageUrl := "u2", category := "other",
    tags := [], featured := false, order := 0, createdAt := 2, updatedAt := 2 }

/-- A create body for a published post without `publishedAt`. -/
def demoCreateBody : BlogBody :=
  { title := some "t", slug := some "s", content := some "c", excerpt := some "e",
    published := some true }

/-- An update body that only publishes. -/
def demoPublishBody : BlogBody := { published := some true }

/-- A published post with an ordinary slug. -/
def demoSlugPost : BlogDoc :=
  { id := 5, title := "Hello", slug := "hello", content := "c", excerpt := "e",
    coverImage := "", tags := [], published := true, publishedAt := some 20,
    order := 0, createdAt := 2, updatedAt := 2 }

/-! ## Claims -/

/-! ### Correctness of the sort model -/

theorem insertLe_perm {α : Type} (le : α → α → Bool) (a : α) (l : List α) :
    List.Perm (insertLe le a l) (a :: l) := by
  induction l with
  | nil => exact List.Perm.refl _
  | cons b l ih =>
    simp only [insertLe]
    split
    · exact List.Perm.refl _
    · exact (ih.cons b).trans (List.Perm.swap a b l)

theorem sortLe_perm {α : Type} (le : α → α → Bool) (l : List α) :
    List.Perm (sortLe le l) l := by
  induction l with
  | nil => exact List.Perm.refl _
  | cons a l ih => exact (insertLe_perm le a (sortLe le l)).trans (ih.cons a)

theorem insertLe_pairwise {α : Type} (le : α → α → Bool)
    (tot : ∀ a b, le a b = true ∨ le b a = true)
    (tr : ∀ a b c, le a b = true → le b c = true → le a c = true)
    (a : α) (l : List α) (h : l.Pairwise (fun x y => le x y = true)) :
    (insertLe le a l).Pairwise (fun x y => le x y = true) := by
  induction l with
  | nil => simp [insertLe]
  | cons b l ih =>
    rcases List.pairwise_cons.mp h with ⟨hb, hl⟩
    simp only [insertLe]
    split
    case isTrue hab =>
      refine List.pairwise_cons.mpr ⟨?_, h⟩
      intro x hx
      rcases List.mem_cons.mp hx with rfl | hx
      · exact hab
      · exact tr a b x hab (hb x hx)
    case isFalse hab =>
      refine List.pairwise_cons.mpr ⟨?_, ih hl⟩
      intro x hx
      rcases List.mem_cons.mp ((insertLe_perm le a l).mem_iff.mp hx) with rfl | hx'
      · rcases tot x b with hxb | hbx
        · exact absurd hxb hab
        · exact hbx
      · exact hb x hx'

theorem sortLe_pairwise {α : Type} (le : α → α → Bool)
    (tot : ∀ a b, le a b = true ∨ le b a = true)
    (tr : ∀ a b c, le a b = true → le b c = true → le a c = true)
    (l : List α) :
    (sortLe le l).Pairwise (fun x y => le x y = true) := by
  induction l with
  | nil => simp [sortLe]
  | cons a l ih => exact insertLe_pairwise le tot tr a (sortLe le l) ih

theorem lexLe_total {α : Type} (k : α → Int) (tie : α → α → Bool)
    (htot : ∀ a b, tie a b = true ∨ tie b a = true) :
    ∀ a b, lexLe k tie a b = true ∨ lexLe k tie b a = true := by
  intro a b
  simp only [lexLe, Bool.or_eq_true, Bool.and_eq_true, decide_eq_true_eq]
  rcases lt_trichotomy (k a) (k b) with h | h | h
  · exact Or.inl (Or.inl h)
  · rcases htot a b with ht | ht
    · exact Or.inl (Or.inr ⟨h, ht⟩)
    · exact Or.inr (Or.inr ⟨h.symm, ht⟩)
  · exact Or.inr (Or.inl h)

theorem lexLe_trans {α : Type} (k : α → Int) (tie : α → α → Bool)
    (htr : ∀ a b c, tie a b = true → tie b c = true → tie a c = true) :
    ∀ a b c, lexLe k tie a b = true → lexLe k tie b c = true →
      lexLe k tie a c = true := by
  intro a b c h1 h2
  simp only [lexLe, Bool.or_eq_true, Bool.and_eq_true, decide_eq_true_eq] at *
  rcases h1 with h1 | ⟨e1, t1⟩ <;> rcases h2 with h2 | ⟨e2, t2⟩
  · exact Or.inl (h1.trans h2)
  · exact Or.inl (e2 ▸ h1)
  · exact Or.inl (e1 ▸ h2)
  · exact Or.inr ⟨e1.trans e2, htr a b c t1 t2⟩

/-- The always-true tie comparison (single-key sorts). -/
theorem lexLe_true_total {α : Type} (k : α → Int) :
    ∀ a b : α, lexLe k (fun _ _ => true) a b = true ∨ lexLe k (fun _ _ => true) b a = true :=
  lexLe_total k _ (fun _ _ => Or.inl rfl)

theorem lexLe_true_trans {α : Type} (k : α → Int) :
    ∀ a b c : α, lexLe k (fun _ _ => true) a b = true →
      lexLe k (fun _ _ => true) b c = true → lexLe k (fun _ _ => true) a c = true :=
  lexLe_trans k _ (fun _ _ _ _ _ => rfl)

/-- A `lexLe` comparison in particular orders its primary keys ascending. -/
theorem lexLe_imp_key_le {α : Type} (k : α → Int) (tie : α → α → Bool) (a b : α)
    (h : lexLe k tie a b = true) : k a ≤ k b := by
  simp only [lexLe, Bool.or_eq_true, Bool.and_eq_true, decide_eq_true_eq] at h
  rcases h with h | ⟨h, _⟩
  · exact le_of_lt h
  · exact le_of_eq h

/-- Claim C6, counterexample. The claim asserts that the three bearer-token
verification failures are indistinguishable to the caller — same status and
same response body. The middleware does answer 401 in all cases, but a
missing token is answered with the body `No token` while a present but
unverifiable token is answered with `Invalid token`, so the bodies differ
between the missing case and the other two. -/
theorem C6_auth_counterexample :
    authMiddleware (fun _ => false) none = some (401, "No token") ∧
    authMiddleware (fun _ => false) (some "Bearer not.a.jwt") = some (401, "Invalid token") ∧
    ("No token" : String) ≠ "Invalid token" := by
  refine ⟨rfl, by decide, by decide⟩

/-- Claim C6, amended: every request to a write endpoint whose bearer token
is missing, malformed, or expired/of invalid signature is rejected by the
shared auth middleware with HTTP 401; the malformed and invalid-signature
cases share the response body `Invalid token`, while the missing case is
distinguishable by its body `No token` (only the status is uniform across
all three). -/
theorem C6_auth_amended :
    (∀ (verify : String → Bool) (hdr : Option String) (r : Nat × String),
      authMiddleware verify hdr = some r → r.1 = 401) ∧
    (∀ verify : String → Bool, authMiddleware verify none = some (401, "No token")) ∧
    (∀ (verify : String → Bool) (hdr : Option String) (t : String),
      extractToken hdr = some t → verify t = false →
      authMiddleware verify hdr = some (401, "Invalid token")) := by
  refine ⟨?_, fun _ => rfl, ?_⟩
  · intro verify hdr r h
    unfold authMiddleware at h
    cases hx : extractToken hdr with
    | none =>
      rw [hx] at h
      simp only [Option.some.injEq] at h
      rw [← h]
    | some t =>
      rw [hx] at h
      simp only [Option.some.injEq] at h
      by_cases hv : verify t = true
      · simp [hv] at h
      · have h2 : ((401 : Nat), "Invalid token") = r := by simpa [hv] using h
        rw [← h2]
  · intro verify hdr t hx hv
    unfold authMiddleware
    rw [hx]
    simp [hv]

/-- Claim C6 witness: the amended theorem applied to a concrete rejected
request (header `Bearer abc`, failing verifier). -/
theorem C6_auth_amended_witness :
    authMiddleware (fun _ => false) (some "Bearer abc") = some (401, "Invalid token") :=
  C6_auth_amended.2.2 (fun _ => false) (some "Bearer abc") "abc" (by decide) rfl

/-- Claim C9, counterexample. The claim asserts that a non-image upload is
rejected as HTTP 400; the multer `fileFilter` error actually propagates to
the terminal Express error middleware, which answers 500 with body
`Error!`, so an authenticated `text/plain` upload gets 500, not 400. -/
theorem C9_upload_counterexample :
    uploadRoute (fun _ => true) (some "Bearer tok") "text/plain" 5 true (.ok "u") =
      (500, "Error!") ∧ (500 : Nat) ≠ 400 := by
  exact ⟨by decide, by decide⟩

/-- Claim C9, amended: for every authenticated upload request whose file
content type is not an image type, the request is rejected through the
generic error middleware as HTTP 500 with body `Error!` (the same happens
above the 10 MiB size ceiling); image files within the ceiling are
accepted — with a file present and a successful storage round-trip the
route answers 200 with the resulting URL. -/
theorem C9_upload_amended :
    (∀ (verify : String → Bool) (hdr : Option String) mt size fp cloud,
      authMiddleware verify hdr = none → strStartsWith mt "image/" = false →
      uploadRoute verify hdr mt size fp cloud = (500, "Error!")) ∧
    (∀ (verify : String → Bool) (hdr : Option String) mt size fp cloud,
      authMiddleware verify hdr = none → strStartsWith mt "image/" = true →
      size > uploadSizeLimit →
      uploadRoute verify hdr mt size fp cloud = (500, "Error!")) ∧
    (∀ (verify : String → Bool) (hdr : Option String) mt size url,
      authMiddleware verify hdr = none → strStartsWith mt "image/" = true →
      size ≤ uploadSizeLimit →
      uploadRoute verify hdr mt size true (.ok url) = (200, url)) := by
  refine ⟨?_, ?_, ?_⟩
  · intro verify hdr mt size fp cloud ha hm
    unfold uploadRoute
    rw [ha, hm]
    rfl
  · intro verify hdr mt size fp cloud ha hm hs
    unfold uploadRoute
    rw [ha, hm]
    simp [hs]
  · intro verify hdr mt size url ha hm hs
    unfold uploadRoute
    rw [ha, hm]
    simp [Nat.not_lt.mpr hs]

/-- Claim C9 witness: the amended theorem applied to a concrete accepted
image upload. -/
theorem C9_upload_amended_witness :
    uploadRoute (fun _ => true) (some "Bearer tok") "image/png" 5 true (.ok "https://u") =
      (200, "https://u") :=
  C9_upload_amended.2.2 (fun _ => true) (some "Bearer tok") "image/png" 5 "https://u"
    (by decide) (by decide) (by decide)

/-- Claim C10, counterexample. The claim asserts that whenever highlighting
throws, the output falls back to the HTML-escaped plain text. In the
declared-and-recognised branch the fallback is automatic detection instead:
if `hljs.highlight` throws and `hljs.highlightAuto` also throws, the
exception escapes the renderer (no escaped output at all); if automatic
detection succeeds, its markup — not the escaped text — is emitted. -/
theorem C10_code_counterexample :
    rendererCode (fun _ => true) (fun _ _ => .error "boom") (fun _ => .error "autoboom")
        "a<b" (some "js") = .error "autoboom" ∧
    (Except.error "autoboom" : Except String String) ≠
      .ok (mkCodeBlock (some "js") (escapeHtml "a<b")) ∧
    rendererCode (fun _ => true) (fun _ _ => .error "boom") (fun _ => .ok "AUTO")
        "a<b" (some "js") = .ok (mkCodeBlock (some "js") "AUTO") ∧
    mkCodeBlock (some "js") "AUTO" ≠ mkCodeBlock (some "js") (escapeHtml "a<b") := by
  refine ⟨rfl, by simp, rfl, by decide⟩

/-- Claim C10, amended: a fenced block with a declared and recognised
language is highlighted with that language; if that highlighting throws,
the renderer falls back to automatic detection, whose own failure
propagates (no escaped fallback in this branch); when no recognised
language is declared, automatic detection is used and a throw there falls
back to the HTML-escaped plain code; the rendered block carries the
language label exactly when a language tag was declared, whether or not it
is recognised. -/
theorem C10_code_amended :
    (∀ (gl : String → Bool) hi ha c (l : String) v, l ≠ "" → gl l = true →
      hi c l = Except.ok v →
      rendererCode gl hi ha c (some l) = .ok (mkCodeBlock (some l) v)) ∧
    (∀ (gl : String → Bool) hi ha c (l : String) e, l ≠ "" → gl l = true →
      hi c l = Except.error e →
      rendererCode gl hi ha c (some l) = Except.map (mkCodeBlock (some l)) (ha c)) ∧
    (∀ (gl : String → Bool) hi ha c (lang : Option String),
      (match lang with | some l => l = "" ∨ gl l = false | none => True) →
      rendererCode gl hi ha c lang =
        (match ha c with
          | .ok w => .ok (mkCodeBlock lang w)
          | .error _ => .ok (mkCodeBlock lang (escapeHtml c)))) ∧
    (∀ (l : String) h, l ≠ "" →
      mkCodeBlock (some l) h =
        "<div class=\"code-block-wrapper\">" ++
          ("<span class=\"code-lang-label\">" ++ l ++ "</span>") ++
          "<pre><code class=\"hljs" ++ (" language-" ++ l) ++ "\">" ++ h ++
          "</code></pre></div>") ∧
    (∀ h, mkCodeBlock none h =
      "<div class=\"code-block-wrapper\"><pre><code class=\"hljs\">" ++ h ++
        "</code></pre></div>") := by
  refine ⟨?_, ?_, ?_, ?_, ?_⟩
  · intro gl hi ha c l v hl hg hv
    simp [rendererCode, hl, hg, hv]
  · intro gl hi ha c l e hl hg he
    cases hac : ha c <;>
      simp [rendererCode, hl, hg, he, hac, Except.map]
  · intro gl hi ha c lang hcase
    cases lang with
    | none => cases hac : ha c <;> simp [rendererCode, hac]
    | some l =>
      rcases hcase with h | h
      · subst h; cases hac : ha c <;> simp [rendererCode, hac]
      · cases hac : ha c <;> simp [rendererCode, hac, h]
  · intro l h hl
    simp [mkCodeBlock, hl]
  · intro h
    rfl

/-- Claim C10 witness: the amended theorem applied to a concrete block
with declared language whose primary highlighting throws and whose
automatic detection succeeds. -/
theorem C10_code_amended_witness :
    rendererCode (fun _ => true) (fun _ _ => .error "boom") (fun _ => .ok "AUTO")
        "x" (some "js") = Except.map (mkCodeBlock (some "js")) (Except.ok "AUTO") :=
  C10_code_amended.2.1 (fun _ => true) (fun _ _ => .error "boom") (fun _ => .ok "AUTO")
    "x" "js" "boom" (by decide) rfl rfl

/-- Claim C2 (code bug evaluation): an authenticated `PUT /api/blog/:id`
with an id that is not in the store and a body whose `published` is `true`
answers 400, not the 404 the claim (and the handler's own
`if (!post) return res.status(404)` line) intends — the handler
dereferences `was.published` on the `null` result of `findById` and the
thrown `TypeError` lands in the `catch` that answers 400. -/
theorem C2_update_missing_id_bug :
    putBlog (fun _ => true) [] 7 { published := some true } 100 =
      (400, ([] : List BlogDoc)) ∧ (400 : Nat) ≠ 404 :=
  ⟨rfl, by decide⟩

/-- Merge-updating never changes a document's id. -/
theorem mergeBlogBody_id (d : BlogDoc) (b : BlogBody) (now : Nat) :
    (mergeBlogBody d b now).id = d.id := rfl

/-- Applying an id-preserving update to exactly the matching documents
commutes with `find?`. -/
theorem find?_map_update {α : Type} (p : α → Bool) (f : α → α)
    (hf : ∀ d, p d = true → p (f d) = true) (l : List α) :
    (l.map (fun d => if p d then f d else d)).find? p = (l.find? p).map f := by
  induction l with
  | nil => rfl
  | cons a l ih =>
    by_cases ha : p a = true
    · simp [List.find?_cons_of_pos, ha, hf a ha]
    · have ha' : p a = false := Bool.eq_false_iff.mpr ha
      simp only [List.map_cons, ha', Bool.false_eq_true, if_false]
      rw [List.find?_cons_of_neg _ (by simp [ha']), List.find?_cons_of_neg _ (by simp [ha'])]
      exact ih

/-- When the body carries no `publishedAt`, a merge-update keeps the
stored document's `publishedAt`, whatever the validation outcome. -/
theorem putBlogUpdate_keep_publishedAt (validate : BlogBody → Bool)
    (store : List BlogDoc) (rid : Nat) (b : BlogBody) (now : Nat) (was : BlogDoc)
    (hfind : store.find? (fun d => d.id == rid) = some was)
    (hpa : b.publishedAt = none) :
    (((putBlogUpdate validate store rid b now).2.find? (fun d => d.id == rid)).map
      (fun d => d.publishedAt)) = some was.publishedAt := by
  unfold putBlogUpdate
  by_cases hv : validate b = true
  · simp only [hv, Bool.not_true, Bool.false_eq_true, if_false, hfind]
    rw [find?_map_update (fun d => d.id == rid) (fun d => mergeBlogBody d b now)
      (fun d hd => hd) store, hfind]
    simp [mergeBlogBody, hpa]
  · simp [Bool.eq_false_iff.mpr hv, hfind]

/-- Claim C1, counterexample. The claim says an UPDATE of an
already-published post does not change its `publishedAt`; but `PUT` is a
merge-update, so a body that supplies `publishedAt` overwrites it: the
stored post is published with `publishedAt = 100`, the update body
carries `publishedAt = 200`, and after the 200-status update the stored
`publishedAt` is 200. -/
theorem C1_publishedAt_counterexample :
    ((putBlog (fun _ => true) [demoPost] 1 { publishedAt := some 200 } 500).2.find?
        (fun d => d.id == 1)).map (fun d => d.publishedAt) = some (some 200) ∧
    demoPost.published = true ∧ demoPost.publishedAt = some 100 ∧
    (putBlog (fun _ => true) [demoPost] 1 { publishedAt := some 200 } 500).1 = 200 ∧
    some (200 : Nat) ≠ some 100 := by
  decide

/-- Claim C1, amended: on CREATE, a body whose `published` is true and
which carries no `publishedAt` gets `publishedAt = now`; on UPDATE, a
false→true transition without a supplied `publishedAt` stamps
`publishedAt = now`; and an UPDATE of an already-published post **that
does not supply `publishedAt` in the body** leaves `publishedAt`
unchanged (a supplied value overwrites it, as the counterexample shows). -/
theorem C1_publishedAt_amended :
    (∀ (newId now : Nat) (b : BlogBody), b.published = some true → b.publishedAt = none →
      validBlogCreate b = true →
      ((postBlog newId now b).2.map (fun p => p.publishedAt)) = some (some now)) ∧
    (∀ (validate : BlogBody → Bool) (store : List BlogDoc) (rid : Nat) (b : BlogBody)
        (now : Nat) (was : BlogDoc),
      store.find? (fun d => d.id == rid) = some was → was.published = false →
      b.published = some true → b.publishedAt = none →
      validate { b with publishedAt := some now } = true →
      (((putBlog validate store rid b now).2.find? (fun d => d.id == rid)).map
        (fun d => d.publishedAt)) = some (some now)) ∧
    (∀ (validate : BlogBody → Bool) (store : List BlogDoc) (rid : Nat) (b : BlogBody)
        (now : Nat) (was : BlogDoc),
      store.find? (fun d => d.id == rid) = some was → was.published = true →
      b.publishedAt = none →
      (((putBlog validate store rid b now).2.find? (fun d => d.id == rid)).map
        (fun d => d.publishedAt)) = some was.publishedAt) := by
  refine ⟨?_, ?_, ?_⟩
  · intro newId now b hb hpa hv
    simp [postBlog, newBlogDoc, hb, hpa, hv]
  · intro validate store rid b now was hfind hwas hb hpa hval
    rw [hb] at hval
    unfold putBlog
    rw [hb, hfind]
    simp only [hwas, Bool.not_false, hpa, Option.isNone_none, Bool.and_true,
      Bool.true_and, Bool.and_self, if_true]
    unfold putBlogUpdate
    simp only [hval, Bool.not_true, Bool.false_eq_true, if_false, hfind]
    rw [find?_map_update (fun d => d.id == rid)
      (fun d => mergeBlogBody d { b with published := some true, publishedAt := some now } now)
      (fun d hd => hd) store, hfind]
    simp [mergeBlogBody]
  · intro validate store rid b now was hfind hwas hpa
    unfold putBlog
    cases hb : b.published with
    | none => exact putBlogUpdate_keep_publishedAt validate store rid b now was hfind hpa
    | some pb =>
      cases pb with
      | false => exact putBlogUpdate_keep_publishedAt validate store rid b now was hfind hpa
      | true =>
        rw [hfind]
        simp only [hwas, Bool.not_true, Bool.false_and, if_false]
        exact putBlogUpdate_keep_publishedAt validate store rid b now was hfind hpa

/-- Claim C1 witness: the amended theorem at a concrete create and a
concrete false→true update. -/
theorem C1_publishedAt_amended_witness :
    ((postBlog 2 300 demoCreateBody).2.map
      (fun p => p.publishedAt)) = some (some 300) ∧
    (((putBlog (fun _ => true) [demoDraft] 4 demoPublishBody 700).2.find?
        (fun d => d.id == 4)).map (fun d => d.publishedAt)) = some (some 700) := by
  constructor
  · exact C1_publishedAt_amended.1 2 300 demoCreateBody rfl rfl (by decide)
  · exact C1_publishedAt_amended.2.1 (fun _ => true) [demoDraft] 4
      demoPublishBody 700 demoDraft (by decide) (by decide) rfl rfl (by decide)

/-- Claim C3, counterexample. The claim covers every slug including the
string `all`; but the route `GET /api/blog/all` is registered before
`GET /api/blog/:slug`, so an unauthenticated request for the slug `all`
is answered by the authenticated list-all handler with 401 — not with the
stored published post whose slug is `all`, and not with 404. -/
theorem C3_slug_counterexample :
    getBlogSeg (fun _ => true) none [demoAllPost] "all" = (401, .err "No token") ∧
    demoAllPost.slug = "all" ∧ demoAllPost.published = true ∧
    (401 : Nat) ≠ 200 ∧ (401 : Nat) ≠ 404 := by
  decide

/-- Claim C3, amended: for every slug segment **other than `all`**, an
unauthenticated `GET /api/blog/:slug` answers 200 with the first stored
post having that slug and published = true, and 404 exactly when no such
published post exists (absent or unpublished); the segment `all` is
instead routed to the authenticated list-all endpoint, which answers 401
without a token. -/
theorem C3_slug_amended :
    (∀ (verify : String → Bool) (hdr : Option String) (store : List BlogDoc)
        (seg : String) (p : BlogDoc), seg ≠ "all" →
      store.find? (fun d => d.slug == seg && d.published) = some p →
      getBlogSeg verify hdr store seg = (200, .one p)) ∧
    (∀ (verify : String → Bool) (hdr : Option String) (store : List BlogDoc)
        (seg : String), seg ≠ "all" →
      store.find? (fun d => d.slug == seg && d.published) = none →
      getBlogSeg verify hdr store seg = (404, .err "Not found")) ∧
    (∀ (store : List BlogDoc) (seg : String),
      store.find? (fun d => d.slug == seg && d.published) = none ↔
        ∀ p ∈ store, ¬(p.slug = seg ∧ p.published = true)) ∧
    (∀ (store : List BlogDoc) (seg : String) (p : BlogDoc),
      store.find? (fun d => d.slug == seg && d.published) = some p →
      p ∈ store ∧ p.slug = seg ∧ p.published = true) ∧
    (∀ (verify : String → Bool) (store : List BlogDoc),
      getBlogSeg verify none store "all" = (401, .err "No token")) := by
  refine ⟨?_, ?_, ?_, ?_, ?_⟩
  · intro verify hdr store seg p hseg hfind
    simp [getBlogSeg, hseg, hfind]
  · intro verify hdr store seg hseg hfind
    simp [getBlogSeg, hseg, hfind]
  · intro store seg
    rw [List.find?_eq_none]
    constructor
    · intro h p hp hpp
      exact h p hp (by simp [hpp.1, hpp.2])
    · intro h p hp hpp
      simp only [Bool.and_eq_true, beq_iff_eq] at hpp
      exact h p hp ⟨hpp.1, hpp.2⟩
  · intro store seg p hfind
    refine ⟨List.mem_of_find?_eq_some hfind, ?_⟩
    have := List.find?_some hfind
    simp only [Bool.and_eq_true, beq_iff_eq] at this
    exact this
  · intro verify store
    rfl

/-- Claim C3 witness: the amended theorem at a concrete published post
fetched by its slug. -/
theorem C3_slug_amended_witness :
    getBlogSeg (fun _ => true) none [demoSlugPost] "hello" = (200, .one demoSlugPost) :=
  C3_slug_amended.1 (fun _ => true) none [demoSlugPost] "hello" demoSlugPost
    (by decide) (by decide)

/-- One reorder step is a pointwise map over the store. -/
theorem applyReorderItem_map (fails : ReorderItem → Bool) (now : Nat)
    (st : List PhotoDoc) (it : ReorderItem) :
    applyReorderItem fails now st it = st.map (fun d => applyChainItem fails now d it) := by
  unfold applyReorderItem applyChainItem
  by_cases hf : fails it = true
  · simp [hf]
  · simp [Bool.eq_false_iff.mpr hf]

/-- The whole batch is a pointwise map over the store: positions, ids and
list length are preserved, and each document is transformed independently
of the others. -/
theorem reorder_store_map (fails : ReorderItem → Bool) (now : Nat)
    (items : List ReorderItem) (st : List PhotoDoc) :
    (reorderPhotography fails now st items).2 = st.map (applyChain fails now items) := by
  show items.foldl (applyReorderItem fails now) st = _
  induction items generalizing st with
  | nil =>
    have h : applyChain fails now [] = id := rfl
    simp [h]
  | cons it items ih =>
    simp only [List.foldl_cons]
    rw [applyReorderItem_map, ih, List.map_map]
    rfl

/-- The pointwise batch effect can only change the `order` field and the
`updatedAt` timestamp. -/
theorem applyChain_only_order (fails : ReorderItem → Bool) (now : Nat)
    (items : List ReorderItem) (d : PhotoDoc) :
    ∃ (o : Int) (u : Nat),
      applyChain fails now items d = { d with order := o, updatedAt := u } := by
  induction items generalizing d with
  | nil => exact ⟨d.order, d.updatedAt, rfl⟩
  | cons it items ih =>
    obtain ⟨o, u, ho⟩ := ih (applyChainItem fails now d it)
    refine ⟨o, u, ?_⟩
    show applyChain fails now items (applyChainItem fails now d it) =
      { d with order := o, updatedAt := u }
    rw [ho]
    unfold applyChainItem
    split
    · rfl
    · split <;> rfl

/-- A document named by no successful item of the batch is unchanged. -/
theorem applyChain_untouched (fails : ReorderItem → Bool) (now : Nat)
    (items : List ReorderItem) (d : PhotoDoc)
    (h : ∀ it ∈ items, fails it = true ∨ d.id ≠ it.id) :
    applyChain fails now items d = d := by
  induction items with
  | nil => rfl
  | cons it items ih =>
    have h1 : applyChainItem fails now d it = d := by
      rcases h it (by simp) with hf | hid
      · simp [applyChainItem, hf]
      · simp [applyChainItem, hid]
    show applyChain fails now items (applyChainItem fails now d it) = d
    rw [h1]
    exact ih (fun x hx => h x (by simp [hx]))

/-- Claim C8, counterexample. The claim says each applied update changes
only the `order` field of the named document, all other fields unchanged.
Every schema has `timestamps: true`, so `findByIdAndUpdate(id, {order})`
also refreshes `updatedAt` on the matched document: after a successful
one-item reorder the document's `updatedAt` is the request time, not its
stored value. -/
theorem C8_reorder_counterexample :
    reorderPhotography (fun _ => false) 99 [demoPhoto1] [⟨1, 10⟩] =
      (200, [{ demoPhoto1 with order := 10, updatedAt := 99 }]) ∧
    ({ demoPhoto1 with order := 10, updatedAt := 99 } : PhotoDoc).updatedAt ≠
      demoPhoto1.updatedAt := by
  refine ⟨by decide, by decide⟩

/-- Claim C8, amended: the reorder batch is applied independently — the
store is a pointwise map of the original (no document added, removed or
moved), each document can only have its `order` field and its `updatedAt`
timestamp changed (the latter by the schema's `timestamps: true`), a
document named by no successful item is untouched, a successful item sets
exactly the named document's `order` and `updatedAt`, the 400 failure
status surfaces exactly when some item's update fails, and (concretely) a
failing item does not roll back the other items' applied updates. -/
theorem C8_reorder_amended :
    (∀ (fails : ReorderItem → Bool) (now : Nat) (st : List PhotoDoc)
        (items : List ReorderItem),
      (reorderPhotography fails now st items).2 = st.map (applyChain fails now items)) ∧
    (∀ (fails : ReorderItem → Bool) (now : Nat) (items : List ReorderItem) (d : PhotoDoc),
      ∃ (o : Int) (u : Nat),
        applyChain fails now items d = { d with order := o, updatedAt := u }) ∧
    (∀ (fails : ReorderItem → Bool) (now : Nat) (items : List ReorderItem) (d : PhotoDoc),
      (∀ it ∈ items, fails it = true ∨ d.id ≠ it.id) →
      applyChain fails now items d = d) ∧
    (∀ (fails : ReorderItem → Bool) (now : Nat) (it : ReorderItem) (d : PhotoDoc),
      fails it = false → d.id = it.id →
      applyChain fails now [it] d = { d with order := it.order, updatedAt := now }) ∧
    (∀ (fails : ReorderItem → Bool) (now : Nat) (st : List PhotoDoc)
        (items : List ReorderItem),
      ((reorderPhotography fails now st items).1 = 400 ↔ ∃ it ∈ items, fails it = true)) ∧
    reorderPhotography (fun it => it.id == 2) 99 [demoPhoto1, demoPhoto2]
        [⟨1, 10⟩, ⟨2, 20⟩] =
      (400, [{ demoPhoto1 with order := 10, updatedAt := 99 }, demoPhoto2]) := by
  refine ⟨fun fails now st items => reorder_store_map fails now items st,
    applyChain_only_order, applyChain_untouched, ?_, ?_, by decide⟩
  · intro fails now it d hf hid
    simp [applyChain, applyChainItem, hf, hid]
  · intro fails now st items
    constructor
    · intro h400
      by_cases h : items.any fails = true
      · exact List.any_eq_true.mp h
      · exfalso
        simp [reorderPhotography, h] at h400
    · intro hex
      have h := List.any_eq_true.mpr hex
      simp [reorderPhotography, h]

/-- Claim C8 witness: a successful single-item update of a named document
sets exactly its order and its refreshed timestamp, at concrete inputs. -/
theorem C8_reorder_amended_witness :
    applyChain (fun it => it.id == 2) 77 [⟨1, 10⟩] demoPhoto1 =
      { demoPhoto1 with order := 10, updatedAt := 77 } :=
  C8_reorder_amended.2.2.2.1 (fun it => it.id == 2) 77 ⟨1, 10⟩ demoPhoto1
    (by decide) (by decide)

/-- A descending tie comparison on a linearly ordered key is total. -/
theorem tieDesc_total {α β : Type} [LinearOrder β] (f : α → β) :
    ∀ a b : α, decide (f b ≤ f a) = true ∨ decide (f a ≤ f b) = true := by
  intro a b
  rcases le_total (f b) (f a) with h | h
  · exact Or.inl (decide_eq_true h)
  · exact Or.inr (decide_eq_true h)

/-- A descending tie comparison on a linearly ordered key is transitive. -/
theorem tieDesc_trans {α β : Type} [LinearOrder β] (f : α → β) :
    ∀ a b c : α, decide (f b ≤ f a) = true → decide (f c ≤ f b) = true →
      decide (f c ≤ f a) = true := by
  intro a b c h1 h2
  exact decide_eq_true (le_trans (of_decide_eq_true h2) (of_decide_eq_true h1))

/-- Unfolding of a successful lexicographic comparison. -/
theorem lexLe_elim {α : Type} (k : α → Int) (tie : α → α → Bool) (a b : α)
    (h : lexLe k tie a b = true) :
    k a < k b ∨ (k a = k b ∧ tie a b = true) := by
  simpa [lexLe, Bool.or_eq_true, Bool.and_eq_true, decide_eq_true_eq] using h

/-- Specification of the single-key (order-ascending) list endpoints. -/
theorem listByOrder_spec {α : Type} (k : α → Int) (s : List α) :
    List.Perm (sortLe (lexLe k (fun _ _ => true)) s) s ∧
    (sortLe (lexLe k (fun _ _ => true)) s).Pairwise (fun a b => k a ≤ k b) :=
  ⟨sortLe_perm _ s,
   (sortLe_pairwise _ (lexLe_true_total k) (lexLe_true_trans k) s).imp
     (fun h => lexLe_imp_key_le k _ _ _ h)⟩

/-- Specification of a two-key sort: order ascending, ties by a linearly
ordered secondary key descending. -/
theorem listByOrderThenDesc_spec {α β : Type} [LinearOrder β] (k : α → Int)
    (f : α → β) (s : List α) :
    List.Perm (sortLe (lexLe k (fun a b => decide (f b ≤ f a))) s) s ∧
    (sortLe (lexLe k (fun a b => decide (f b ≤ f a))) s).Pairwise
      (fun a b => k a < k b ∨ (k a = k b ∧ f b ≤ f a)) := by
  refine ⟨sortLe_perm _ s, ?_⟩
  refine (sortLe_pairwise _ ?_ ?_ s).imp ?_
  · exact lexLe_total k _ (fun a b => tieDesc_total f a b)
  · exact lexLe_trans k _ (fun a b c h1 h2 => tieDesc_trans f a b c h1 h2)
  · intro a b h
    rcases lexLe_elim k _ a b h with h1 | ⟨h1, h2⟩
    · exact Or.inl h1
    · exact Or.inr ⟨h1, of_decide_eq_true h2⟩

/-- Claim C7, counterexample. The claim quantifies over every collection,
BlogPost included; but the public BlogPost LIST is `find({published:
true}).sort({publishedAt: -1})` — an unpublished stored post is not
returned at all, so LIST does not return all stored documents sorted by
order. -/
theorem C7_list_counterexample :
    getBlogPublic [demoDraft] = [] ∧ ([demoDraft] : List BlogDoc) ≠ [] := by
  exact ⟨rfl, by decide⟩

/-- Claim C7, amended: every collection except BlogPost returns all stored
documents sorted by `order` ascending — Experience breaking ties by
`startDate` descending and Project by `createdAt` descending — and only
Experience reads an equality filter (`type`; the other handlers ignore the
query entirely); the public BlogPost LIST instead returns exactly the
published posts, sorted by `publishedAt` descending. -/
theorem C7_list_amended :
    (∀ (s : List PhotoDoc) (q : Option String),
      List.Perm (getPhotography s q) s ∧
      (getPhotography s q).Pairwise (fun a b => a.order ≤ b.order) ∧
      ∀ q', getPhotography s q = getPhotography s q') ∧
    (∀ (s : List VideoDoc) (q : Option String),
      List.Perm (getVideos s q) s ∧
      (getVideos s q).Pairwise (fun a b => a.order ≤ b.order) ∧
      ∀ q', getVideos s q = getVideos s q') ∧
    (∀ (s : List SkillDoc) (q : Option String),
      List.Perm (getSkills s q) s ∧
      (getSkills s q).Pairwise (fun a b => a.order ≤ b.order) ∧
      ∀ q', getSkills s q = getSkills s q') ∧
    (∀ (s : List CourseDoc) (q : Option String),
      List.Perm (getCourses s q) s ∧
      (getCourses s q).Pairwise (fun a b => a.order ≤ b.order) ∧
      ∀ q', getCourses s q = getCourses s q') ∧
    (∀ (s : List CreativeDoc) (q : Option String),
      List.Perm (getCreatives s q) s ∧
      (getCreatives s q).Pairwise (fun a b => a.order ≤ b.order) ∧
      ∀ q', getCreatives s q = getCreatives s q') ∧
    (∀ (s : List ProjDoc) (q : Option String),
      List.Perm (getProjects s q) s ∧
      (getProjects s q).Pairwise
        (fun a b => a.order < b.order ∨ (a.order = b.order ∧ b.createdAt ≤ a.createdAt)) ∧
      ∀ q', getProjects s q = getProjects s q') ∧
    (∀ s : List ExpDoc,
      List.Perm (getExperience s none) s ∧
      (getExperience s none).Pairwise
        (fun a b => a.order < b.order ∨ (a.order = b.order ∧ b.startDate ≤ a.startDate))) ∧
    (∀ (s : List ExpDoc) (t : String), t ≠ "" →
      (∀ d, d ∈ getExperience s (some t) ↔ d ∈ s ∧ d.type = t) ∧
      (getExperience s (some t)).Pairwise
        (fun a b => a.order < b.order ∨ (a.order = b.order ∧ b.startDate ≤ a.startDate))) ∧
    (∀ s : List BlogDoc,
      (∀ d, d ∈ getBlogPublic s ↔ d ∈ s ∧ d.published = true) ∧
      (getBlogPublic s).Pairwise
        (fun a b => b.publishedAt.getD 0 ≤ a.publishedAt.getD 0)) := by
  refine ⟨?_, ?_, ?_, ?_, ?_, ?_, ?_, ?_, ?_⟩
  · exact fun s q => ⟨(listByOrder_spec _ s).1, (listByOrder_spec _ s).2, fun _ => rfl⟩
  · exact fun s q => ⟨(listByOrder_spec _ s).1, (listByOrder_spec _ s).2, fun _ => rfl⟩
  · exact fun s q => ⟨(listByOrder_spec _ s).1, (listByOrder_spec _ s).2, fun _ => rfl⟩
  · exact fun s q => ⟨(listByOrder_spec _ s).1, (listByOrder_spec _ s).2, fun _ => rfl⟩
  · exact fun s q => ⟨(listByOrder_spec _ s).1, (listByOrder_spec _ s).2, fun _ => rfl⟩
  · exact fun s q => ⟨(listByOrderThenDesc_spec _ _ s).1, (listByOrderThenDesc_spec _ _ s).2,
      fun _ => rfl⟩
  · exact fun s => ⟨(listByOrderThenDesc_spec _ _ s).1, (listByOrderThenDesc_spec _ _ s).2⟩
  · intro s t ht
    have hq : getExperience s (some t) =
        sortLe (lexLe (fun d => d.order) (fun a b => decide (b.startDate ≤ a.startDate)))
          (s.filter (fun d => d.type == t)) := by
      simp [getExperience, ht]
    constructor
    · intro d
      rw [hq, ((listByOrderThenDesc_spec (fun d : ExpDoc => d.order)
        (fun d => d.startDate) (s.filter (fun d => d.type == t))).1).mem_iff]
      simp [List.mem_filter, beq_iff_eq]
    · rw [hq]
      exact (listByOrderThenDesc_spec _ _ _).2
  · intro s
    constructor
    · intro d
      rw [getBlogPublic, (sortLe_perm _ _).mem_iff]
      simp [List.mem_filter]
    · refine (sortLe_pairwise _ ?_ ?_ _).imp ?_
      · exact fun a b => tieDesc_total (fun d : BlogDoc => d.publishedAt.getD 0) a b
      · exact fun a b c h1 h2 => tieDesc_trans (fun d : BlogDoc => d.publishedAt.getD 0) a b c h1 h2
      · exact fun h => of_decide_eq_true h

/-- Claim C7 witness: the Experience `type` filter at a concrete store —
the work entry is returned, the education entry is not. -/
theorem C7_list_amended_witness :
    demoExpWork ∈ getExperience [demoExpWork, demoExpEdu] (some "work") ∧
    demoExpEdu ∉ getExperience [demoExpWork, demoExpEdu] (some "work") := by
  have h := C7_list_amended.2.2.2.2.2.2.2.1 [demoExpWork, demoExpEdu] "work" (by decide)
  constructor
  · exact (h.1 demoExpWork).mpr ⟨by decide, by decide⟩
  · intro hmem
    exact absurd ((h.1 demoExpEdu).mp hmem).2 (by decide)

/-- `takeWhile` swallows a run the predicate accepts wholly and stops at a
suffix it rejects immediately. -/
theorem takeWhile_append_all (p : Char → Bool) (w l : List Char)
    (hw : ∀ c ∈ w, p c = true) (hl : l.takeWhile p = []) :
    (w ++ l).takeWhile p = w := by
  induction w with
  | nil => simpa using hl
  | cons a w ih =>
    have ha : p a = true := hw a (List.mem_cons_self a w)
    rw [List.cons_append, List.takeWhile_cons_of_pos ha,
      ih (fun c hc => hw c (List.mem_cons_of_mem a hc))]

/-- Parsing the piece after the opening delimiter of a one-block input
whose keyword is an arbitrary nonempty `\w+` word: no spaces, the keyword,
no title, the newline, then the concrete body closed by the final `:::`. -/
theorem matchAfter_word (w : List Char) (hw : w ≠ [])
    (hall : ∀ c ∈ w, isWordChar c = true) :
    matchAfter (w ++ '\n' :: "Do not do X\n:::".data) =
      some (w.length + 16, (w, none, "Do not do X\n".data)) := by
  obtain ⟨a, w', rfl⟩ : ∃ a w', w = a :: w' := by
    cases w with
    | nil => exact absurd rfl hw
    | cons a w' => exact ⟨a, w', rfl⟩
  have ha : isWordChar a = true := hall a (List.mem_cons_self a w')
  have hasp : ¬ ((fun c => decide (c = ' ')) a = true) := by
    simp only [decide_eq_true_eq]
    intro h
    rw [h] at ha
    exact absurd ha (by decide)
  have hsp : ((a :: w' ++ '\n' :: "Do not do X\n:::".data).takeWhile
      (fun c => decide (c = ' '))) = [] := by
    rw [List.cons_append]
    exact List.takeWhile_cons_of_neg hasp
  have hword : ((a :: w' ++ '\n' :: "Do not do X\n:::".data).takeWhile isWordChar) =
      a :: w' :=
    takeWhile_append_all isWordChar (a :: w') _ hall
      (List.takeWhile_cons_of_neg (by decide))
  have hlr : List.takeWhile (fun c => !(isLineTerm c)) ('\n' :: "Do not do X\n:::".data) =
      [] := rfl
  have hpt : parseTitle ([] : List Char) = some none := rfl
  have hfc : findClose ("Do not do X\n:::".data) = some (12, 3) := by decide
  have htk : List.take 12 ("Do not do X\n:::".data) = "Do not do X\n".data := by decide
  unfold matchAfter
  simp only [hsp, List.length_nil, List.drop_zero, hword, List.isEmpty_cons,
    Bool.false_eq_true, if_false, List.drop_left, hlr, hpt, hfc, htk]
  simp only [Option.some.injEq, Prod.mk.injEq]
  and_intros <;> first
  | trivial
  | omega

/-- The block match on the whole one-block input. -/
theorem matchBlock_word (w : List Char) (hw : w ≠ [])
    (hall : ∀ c ∈ w, isWordChar c = true) :
    matchBlock (':' :: ':' :: ':' :: (w ++ '\n' :: "Do not do X\n:::".data)) =
      some ⟨3 + (w.length + 16), w, none, "Do not do X\n".data⟩ := by
  unfold matchBlock
  show (match matchAfter (w ++ '\n' :: "Do not do X\n:::".data) with
    | none => none
    | some (n, w, title, body) => some ⟨3 + n, w, title, body⟩ : Option AdMatch) = _
  rw [matchAfter_word w hw hall]

/-- Claim C4: the admonition preprocessor turns
`:::warning Careful\nDo not do X\n:::` into a container whose title
paragraph reads `⚠️ Careful` and whose body holds `Do not do X`; keyword
matching is case-insensitive (`:::WARNING ...` yields the same container);
and every one-block input whose `\w+` keyword is — case-insensitively —
outside the recognised set is emitted unchanged, delimiters included,
whatever the id generator. -/
theorem C4_admonition_roundtrip :
    (preprocessAdmonitionsStr demoId ":::warning Careful\nDo not do X\n:::" =
      "\n<div class=\"admonition admonition-warning\" data-admonition=\"ID\"><p class=\"admonition-title\">⚠️ Careful</p>\n\nDo not do X\n\n</div>\n" ∧
     hasSub "<p class=\"admonition-title\">⚠️ Careful</p>".data
       (preprocessAdmonitionsStr demoId ":::warning Careful\nDo not do X\n:::").data = true ∧
     hasSub "Do not do X".data
       (preprocessAdmonitionsStr demoId ":::warning Careful\nDo not do X\n:::").data = true) ∧
    preprocessAdmonitionsStr demoId ":::WARNING Careful\nDo not do X\n:::" =
      preprocessAdmonitionsStr demoId ":::warning Careful\nDo not do X\n:::" ∧
    (∀ (g : Nat → List Char) (w : List Char), w ≠ [] →
      (∀ c ∈ w, isWordChar c = true) →
      (w.map Char.toLower) ∉ ADMONITION_TYPES →
      preprocessAdmonitions g
          (':' :: ':' :: ':' :: (w ++ '\n' :: "Do not do X\n:::".data)) =
        ':' :: ':' :: ':' :: (w ++ '\n' :: "Do not do X\n:::".data)) := by
  refine ⟨⟨by decide, by decide, by decide⟩, by decide, ?_⟩
  intro g w hw hall hmem
  have hmb := matchBlock_word w hw hall
  have hD : ("Do not do X\n:::".data).length = 15 := rfl
  have hlen : (':' :: ':' :: ':' :: (w ++ '\n' :: "Do not do X\n:::".data)).length =
      3 + (w.length + 16) := by
    simp [List.length_cons, List.length_append, hD]
    omega
  have htake : (':' :: ':' :: ':' :: (w ++ '\n' :: "Do not do X\n:::".data)).take
      (3 + (w.length + 16)) = ':' :: ':' :: ':' :: (w ++ '\n' :: "Do not do X\n:::".data) := by
    rw [← hlen]
    exact List.take_length _
  have hdrop : (':' :: ':' :: ':' :: (w ++ '\n' :: "Do not do X\n:::".data)).drop
      (3 + (w.length + 16)) = [] := by
    rw [← hlen]
    exact List.drop_length _
  have hcon : ADMONITION_TYPES.contains (w.map Char.toLower) = false := by
    simpa using hmem
  have hro : ∀ x : List Char, replaceOut x
      (':' :: ':' :: ':' :: (w ++ '\n' :: "Do not do X\n:::".data))
      ⟨3 + (w.length + 16), w, none, "Do not do X\n".data⟩ =
      ':' :: ':' :: ':' :: (w ++ '\n' :: "Do not do X\n:::".data) := by
    intro x
    unfold replaceOut
    simp [hcon, hmem]
  have hsucc : (':' :: ':' :: ':' :: (w ++ '\n' :: "Do not do X\n:::".data)).length =
      (w.length + 18) + 1 := by
    rw [hlen]; omega
  unfold preprocessAdmonitions
  rw [hsucc]
  show processAux g 0 ((w.length + 18) + 1) true
      (':' :: (':' :: ':' :: (w ++ '\n' :: "Do not do X\n:::".data))) = _
  simp only [processAux, if_true]
  rw [hmb]
  simp only [htake, hdrop, hro]
  simp [processAux]

/-- Claim C4 witness: the universal unrecognised-keyword conjunct applied
to the concrete keyword `POTATO` (upper case, so the membership test is
exercised case-insensitively). -/
theorem C4_admonition_roundtrip_witness :
    preprocessAdmonitions demoId
        (':' :: ':' :: ':' :: ("POTATO".data ++ '\n' :: "Do not do X\n:::".data)) =
      ':' :: ':' :: ':' :: ("POTATO".data ++ '\n' :: "Do not do X\n:::".data) :=
  C4_admonition_roundtrip.2.2 demoId "POTATO".data (by decide) (by decide) (by decide)

/-- Claim C5, counterexample. The claim says a region closed by the other
delimiter spelling, or by a delimiter not standing on its own line, is not
rewritten. The regex's closing alternation accepts either spelling
regardless of the opening one, and only requires the closing delimiter to
be followed by whitespace to the end of a line — so a `:::`-opened block
closed by `!!!`, and one whose closing `:::` shares its line with body
text, are both rewritten into containers. -/
theorem C5_delimiters_counterexample :
    preprocessAdmonitionsStr demoId ":::warning Careful\nDo not do X\n!!!" =
      "\n<div class=\"admonition admonition-warning\" data-admonition=\"ID\"><p class=\"admonition-title\">⚠️ Careful</p>\n\nDo not do X\n\n</div>\n" ∧
    preprocessAdmonitionsStr demoId ":::warning Careful\nDo not do X\n!!!" ≠
      ":::warning Careful\nDo not do X\n!!!" ∧
    preprocessAdmonitionsStr demoId ":::warning Careful\nDo not do X :::" =
      "\n<div class=\"admonition admonition-warning\" data-admonition=\"ID\"><p class=\"admonition-title\">⚠️ Careful</p>\n\nDo not do X\n\n</div>\n" ∧
    preprocessAdmonitionsStr demoId ":::warning Careful\nDo not do X :::" ≠
      ":::warning Careful\nDo not do X :::" := by
  refine ⟨by decide, by decide, by decide, by decide⟩

/-- Claim C5, amended: the two opening spellings `:::` and `!!!` parse
identically; a region is rewritten when it runs from a recognised opening
token at a line start to the nearest closing delimiter of **either**
spelling that is followed by nothing but whitespace up to the end of a
line — the closing delimiter need not match the opening spelling and need
not stand alone on its line, while a delimiter followed by further
non-whitespace text on its line does not close the region. -/
theorem C5_delimiters_amended :
    (∀ t : List Char,
      matchBlock (':' :: ':' :: ':' :: t) = matchBlock ('!' :: '!' :: '!' :: t)) ∧
    preprocessAdmonitionsStr demoId ":::warning Careful\nDo not do X\n!!!" =
      preprocessAdmonitionsStr demoId "!!!warning Careful\nDo not do X\n:::" ∧
    preprocessAdmonitionsStr demoId ":::warning Careful\nDo not do X :::" =
      "\n<div class=\"admonition admonition-warning\" data-admonition=\"ID\"><p class=\"admonition-title\">⚠️ Careful</p>\n\nDo not do X\n\n</div>\n" ∧
    preprocessAdmonitionsStr demoId ":::warning Careful\nDo not do X ::: more\n:::" =
      "\n<div class=\"admonition admonition-warning\" data-admonition=\"ID\"><p class=\"admonition-title\">⚠️ Careful</p>\n\nDo not do X ::: more\n\n</div>\n" := by
  refine ⟨fun t => rfl, by decide, by decide, by decide⟩

end Portfolio
